import Mathlib

/-!
Verification of the appointment scheduling logic of a medical
appointment-booking web application.

The development shallowly embeds the appointment data model
(src/server/models/Appointment.js) and the scheduling operations of the
appointments router (src/server/routes/appointments.js), the appointment
controller (src/server/controllers/appointmentController.js) and the
transactional router variant (src/unnamed/part_003).

Modelling conventions:
- Instants are `Int` values, milliseconds since the Unix epoch (the same
  scale JavaScript `Date.getTime` uses).
- Identifiers (Mongo ObjectIds) are `Nat`.
- Statuses are plain `String`s, exactly as in the source.
- The Appointment Store is a `List Appt`; `findOne`/`findById` are
  `List.find?`, matching Mongo's first-match semantics on a fixed order.
- Persisting a document (`save` / `findOneAndUpdate` with validators)
  validates the document's `status` against the schema enum of
  src/server/models/Appointment.js and fails like mongoose does when the
  value is out of enum; the schema's `date` setter (`toDateOnly`) applies
  when the `date` path is assigned, i.e. at creation.
- The schema runs in mongoose strict mode and declares only the paths
  patient, doctor, date, purpose and status: handler assignments to the
  undeclared paths cancelledBy, cancellationReason, notes, prescription
  and completedAt have no observable effect (they reach neither the
  saved document nor the serialized response), so every embedded
  document update changes only the status path.
- The schema's `date` getter (src/server/models/Appointment.js line 28)
  turns every handler read of `appointment.date` into the "YYYY-MM-DD"
  date-only string: arithmetic on it and relational comparisons against
  a Date coerce to NaN and are therefore always false (`nanCmp`), and
  calling `getTime()` on it throws a TypeError that the handler's catch
  maps to the 500 server error. Query filters (`find`/`findOne`) run
  against the raw stored BSON dates, without the getter.
- Handlers take the caller identity `(callerId, callerRole)` that the
  auth middleware provides, and `now` where the source calls `new Date()`.
- Request-body parsing, ObjectId format checks and the invalid-date
  (`isNaN`) branch happen before the logic modelled here; handler inputs
  are the already-parsed values.
-/

namespace MedSched

/-- Milliseconds in a minute. -/
def msPerMinute : Int := 60 * 1000

/-- Milliseconds in an hour. -/
def msPerHour : Int := 60 * 60 * 1000

/-- Milliseconds in a day. -/
def msPerDay : Int := 24 * 60 * 60 * 1000

/-- An appointment document, with every field the embedded handlers read
or write (src/server/models/Appointment.js plus the paths the route
handlers assign). -/
structure Appt where
  id : Nat
  patient : Nat
  doctor : Nat
  date : Int
  purpose : String
  notes : String
  prescription : String
  status : String
  cancelledBy : String
  cancellationReason : String
  completedAt : Option Int
deriving Repr, DecidableEq

/-- The `status` enum of the appointment schema
(src/server/models/Appointment.js lines 35-39). -/
def statusEnum : List String :=
  ["pending", "accepted", "rejected", "cancelled", "completed"]

/-- The model's date setter: normalize to UTC midnight
(src/server/models/Appointment.js `toDateOnly`, `setUTCHours(0,0,0,0)`).
Lean's `Int` division is Euclidean, which for the positive divisor
`msPerDay` is exactly the floor that UTC-midnight truncation performs. -/
def toDateOnly (t : Int) : Int := t / msPerDay * msPerDay

/-- The router's date normalizer for list-query bounds
(src/server/routes/appointments.js `normalizeDate`): also
`setUTCHours(0,0,0,0)`, i.e. the start of the UTC day. -/
def normalizeDate (t : Int) : Int := t / msPerDay * msPerDay

/-- JavaScript `x || dflt` on an optional/possibly-empty string field:
an absent or empty (falsy) value falls back to the default. -/
def orDefault (o : Option String) (dflt : String) : String :=
  match o with
  | some s => if s = "" then dflt else s
  | none => dflt

/-- A JavaScript relational comparison one of whose operands reads
`appointment.date` through the schema's string getter: numeric coercion
of the "YYYY-MM-DD" string yields NaN, and every < or > comparison
involving NaN is false, whatever the other operand. The argument only
records which bound the source compares against. -/
def nanCmp (_bound : Int) : Bool := false

/-- The conflict predicate of `checkTimeSlotConflict`
(src/server/routes/appointments.js lines 35-45): same doctor, stored
`date` within plus or minus 30 minutes of the requested instant, status
pending or confirmed, optionally excluding one appointment id. -/
def conflictMatches (doctorId : Nat) (date : Int) (excludeId : Option Nat)
    (a : Appt) : Bool :=
  a.doctor == doctorId
    && decide (date - 30 * msPerMinute ≤ a.date)
    && decide (a.date ≤ date + 30 * msPerMinute)
    && (a.status == "pending" || a.status == "confirmed")
    && (match excludeId with
        | some i => a.id != i
        | none => true)

/-- `Appointment.findOne` with the conflict filter: the first stored
appointment matching `conflictMatches`, if any. -/
def checkTimeSlotConflict (store : List Appt) (doctorId : Nat) (date : Int)
    (excludeId : Option Nat) : Option Appt :=
  store.find? (conflictMatches doctorId date excludeId)

/-- `Appointment.findById`. -/
def findAppt (store : List Appt) (apptId : Nat) : Option Appt :=
  store.find? (fun a => a.id == apptId)

/-- Persist a mutated document: mongoose `save` (and `findOneAndUpdate`
with `runValidators`) validates the status path against the schema enum;
`none` models the thrown `ValidationError`. On success the stored
document with that id is replaced. Because strict mode ignores
assignments to undeclared paths (see `cancelUpd`, `completeUpd`), every
document passed here differs from its loaded original only in the
status path, so replacement persists exactly the schema paths and
nothing non-schema is ever written. -/
def saveAppt (store : List Appt) (updated : Appt) : Option (List Appt) :=
  if updated.status ∈ statusEnum then
    some (store.map (fun b => if b.id = updated.id then updated else b))
  else
    none

/-- The document `Appointment.create` builds in the booking handler
(src/server/routes/appointments.js lines 245-252): patient = caller,
status "pending", purpose defaulted by `||`, and the schema's
`toDateOnly` setter applied to the date path. The handler also passes
`notes: notes || ""`, but notes is not a schema path, so strict mode
drops it and the stored document carries no notes. -/
def mkAppt (callerId doctorId : Nat) (date : Int)
    (purpose _notes : Option String) (newId : Nat) : Appt :=
  { id := newId
    patient := callerId
    doctor := doctorId
    date := toDateOnly date
    purpose := orDefault purpose "General Consultation"
    notes := ""
    prescription := ""
    status := "pending"
    cancelledBy := ""
    cancellationReason := ""
    completedAt := none }

/-- Outcome of the booking handler, each constructor one exit of
`router.post("/")` in src/server/routes/appointments.js. -/
inductive BookResult where
  | accessDenied
  | pastDate
  | conflict (cid : Nat) (cdate : Int) (cpatient : Nat)
  | created (a : Appt)
deriving Repr, DecidableEq

/-- HTTP status code of each booking exit, as sent by the handler. -/
def BookResult.httpStatus : BookResult → Nat
  | .accessDenied => 403
  | .pastDate => 400
  | .conflict _ _ _ => 409
  | .created _ => 201

/-- Whether a booking outcome is the 409 conflict exit. -/
def BookResult.isConflict : BookResult → Bool
  | .conflict _ _ _ => true
  | _ => false

/-- Whether a booking outcome is the 201 created exit. -/
def BookResult.isCreated : BookResult → Bool
  | .created _ => true
  | _ => false

/-- The decision phase of the booking handler
(src/server/routes/appointments.js lines 200-252): role gate, the
strict `appointmentDate < today` past check, then the conflict read.
`.created` here means the handler has decided to write. -/
def bookDecide (store : List Appt) (now : Int) (callerId : Nat)
    (callerRole : String) (doctorId : Nat) (date : Int)
    (purpose notes : Option String) (newId : Nat) : BookResult :=
  if callerRole ≠ "patient" then .accessDenied
  else if date < now then .pastDate
  else
    match checkTimeSlotConflict store doctorId date none with
    | some c => .conflict c.id c.date c.patient
    | none => .created (mkAppt callerId doctorId date purpose notes newId)

/-- The full booking handler: the decision phase followed, on success, by
the unconditional `Appointment.create` write. The read and the write are
separate store operations, exactly as in the source (no transaction in
src/server/routes/appointments.js). -/
def book (store : List Appt) (now : Int) (callerId : Nat)
    (callerRole : String) (doctorId : Nat) (date : Int)
    (purpose notes : Option String) (newId : Nat) :
    BookResult × List Appt :=
  match bookDecide store now callerId callerRole doctorId date purpose notes newId with
  | .created a => (.created a, store ++ [a])
  | r => (r, store)

/-- Outcome of the accept handler of src/server/routes/appointments.js
(`router.put("/:id/accept")`, lines 354-436). -/
inductive AcceptResult where
  | accessDenied
  | notFound
  | unauthorized
  | invalidStatus (cur : String)
  | conflict (cid : Nat) (cdate : Int) (cpatient : Nat)
  | serverError
  | accepted (a : Appt)
deriving Repr, DecidableEq

/-- HTTP status code of each accept exit. -/
def AcceptResult.httpStatus : AcceptResult → Nat
  | .accessDenied => 403
  | .notFound => 404
  | .unauthorized => 403
  | .invalidStatus _ => 400
  | .conflict _ _ _ => 409
  | .serverError => 500
  | .accepted _ => 200

/-- Whether an accept outcome is the success exit. -/
def AcceptResult.isAccepted : AcceptResult → Bool
  | .accepted _ => true
  | _ => false

/-- The accept handler of src/server/routes/appointments.js: role gate,
load, ownership, `status !== "pending"` guard, then the conflict
re-check `checkTimeSlotConflict(req.user.userId, appointment.date,
appointment._id)`. That call evaluates `date.getTime()` on the value of
`appointment.date`, which the schema's getter has turned into the
"YYYY-MM-DD" string, so it throws a TypeError that the handler's catch
maps to the 500 server error before any write: the 409 conflict exit
and the success exit (lines 401-431) are unreachable, and the
`status = "confirmed"` save they lead to would be rejected by the
schema enum in any case (`saveAppt_confirmed`). -/
def acceptV1 (store : List Appt) (callerId : Nat) (callerRole : String)
    (apptId : Nat) : AcceptResult × List Appt :=
  if callerRole ≠ "doctor" then (.accessDenied, store)
  else
    match findAppt store apptId with
    | none => (.notFound, store)
    | some a =>
      if a.doctor ≠ callerId then (.unauthorized, store)
      else if a.status ≠ "pending" then (.invalidStatus a.status, store)
      else (.serverError, store)

/-- Outcome of the transactional accept handler of src/unnamed/part_003
(`router.put("/:id/accept")`, lines 206-309). -/
inductive TxAcceptResult where
  | accessDenied
  | notFound
  | invalidRef
  | pastDate
  | conflict (cid : Nat) (cdate : Int) (cpatient : Nat)
  | serverError
  | accepted (a : Appt)
deriving Repr, DecidableEq

/-- HTTP status code of each transactional-accept exit. -/
def TxAcceptResult.httpStatus : TxAcceptResult → Nat
  | .accessDenied => 403
  | .notFound => 404
  | .invalidRef => 400
  | .pastDate => 400
  | .conflict _ _ _ => 409
  | .serverError => 500
  | .accepted _ => 200

/-- The transactional accept handler of src/unnamed/part_003: the single
`findOne` guarded by id, doctor and pending status; the populate
reference checks against the user directory; the
`appointment.date < new Date()` past rejection; the conflict re-check;
then `findOneAndUpdate` guarded by pending status with `runValidators`.
On any failure the transaction aborts, leaving the store unchanged.
This snapshot is read with the plain-Date model semantics of its
companion schema (src/unnamed/part_000, a `date` path with no getter),
under which its date comparisons are live. -/
def acceptTx (store : List Appt) (users : List Nat) (now : Int)
    (callerId : Nat) (callerRole : String) (apptId : Nat) :
    TxAcceptResult × List Appt :=
  if callerRole ≠ "doctor" then (.accessDenied, store)
  else
    match store.find? (fun a =>
        a.id == apptId && a.doctor == callerId && a.status == "pending") with
    | none => (.notFound, store)
    | some a =>
      if a.patient ∉ users ∨ a.doctor ∉ users then (.invalidRef, store)
      else if a.date < now then (.pastDate, store)
      else
        match checkTimeSlotConflict store callerId a.date (some a.id) with
        | some c => (.conflict c.id c.date c.patient, store)
        | none =>
          match saveAppt store { a with status := "confirmed" } with
          | some store' => (.accepted { a with status := "confirmed" }, store')
          | none => (.serverError, store)

/-- Outcome of the cancel handler of src/server/routes/appointments.js
(`router.patch("/:id/cancel")`, lines 271-351). -/
inductive CancelResult where
  | notFound
  | unauthorized
  | invalidStatus (cur : String)
  | cancellationWindow (hoursRemaining : Int)
  | cancelled (a : Appt)
  | serverError
deriving Repr, DecidableEq

/-- HTTP status code of each cancel exit. -/
def CancelResult.httpStatus : CancelResult → Nat
  | .notFound => 404
  | .unauthorized => 403
  | .invalidStatus _ => 400
  | .cancellationWindow _ => 403
  | .cancelled _ => 200
  | .serverError => 500

/-- The document state the cancel handler actually commits: only the
status assignment survives — the handler also assigns `cancelledBy` and
`cancellationReason` (appointments.js lines 337-338), but neither is a
schema path, so strict mode ignores those assignments and they appear
neither in the saved document nor in the response. -/
def cancelUpd (a : Appt) : Appt := { a with status := "cancelled" }

/-- The cancel handler of src/server/routes/appointments.js: load,
ownership by patient or doctor id, terminal-status guard, then the
24-hour (patient) and 1-hour (doctor) window guards of lines 315-334.
`hoursUntilAppointment = (appointment.date - now) / 3600000` is NaN
because `appointment.date` reads through the schema's string getter, so
both guards (`nanCmp`) are dead code and the `cancellationWindow` exit
(whose `hoursRemaining` would be `Math.ceil(NaN)`) is unreachable; the
handler always proceeds to the cancelled write. -/
def cancel (store : List Appt) (_now : Int) (callerId : Nat)
    (_callerRole : String) (apptId : Nat) (_reason : Option String) :
    CancelResult × List Appt :=
  match findAppt store apptId with
  | none => (.notFound, store)
  | some a =>
    if callerId ≠ a.patient ∧ callerId ≠ a.doctor then (.unauthorized, store)
    else if a.status = "cancelled" ∨ a.status = "completed" then
      (.invalidStatus a.status, store)
    else if callerId = a.patient ∧ nanCmp 24 = true then
      (.cancellationWindow 0, store)
    else if callerId = a.doctor ∧ nanCmp 1 = true then
      (.cancellationWindow 0, store)
    else
      match saveAppt store (cancelUpd a) with
      | some store' => (.cancelled (cancelUpd a), store')
      | none => (.serverError, store)

/-- Outcome of the complete handler of src/server/routes/appointments.js
(`router.patch("/:id/complete")`, lines 439-515). -/
inductive CompleteResult where
  | accessDenied
  | notFound
  | unauthorized
  | invalidStatus (cur : String)
  | futureAppointment
  | completed (a : Appt)
  | serverError
deriving Repr, DecidableEq

/-- HTTP status code of each complete exit. -/
def CompleteResult.httpStatus : CompleteResult → Nat
  | .accessDenied => 403
  | .notFound => 404
  | .unauthorized => 403
  | .invalidStatus _ => 400
  | .futureAppointment => 400
  | .completed _ => 200
  | .serverError => 500

/-- The document state the complete handler actually commits: only the
status assignment survives — the handler also assigns the `||`-merged
notes and prescription and `completedAt = new Date()` (appointments.js
lines 500-502), but none of the three is a schema path, so strict mode
ignores those assignments and they appear neither in the saved document
nor in the response. -/
def completeUpd (a : Appt) : Appt := { a with status := "completed" }

/-- The complete handler of src/server/routes/appointments.js: role
gate, load, ownership, `status !== "confirmed"` guard, then the
`appointment.date > new Date()` future guard of line 489. That
comparison coerces the getter's "YYYY-MM-DD" string to NaN and is
always false (`nanCmp`), so the future-appointment exit is dead code
and the handler always proceeds to the completed write. -/
def complete (store : List Appt) (now : Int) (callerId : Nat)
    (callerRole : String) (apptId : Nat)
    (_notes _prescription : Option String) : CompleteResult × List Appt :=
  if callerRole ≠ "doctor" then (.accessDenied, store)
  else
    match findAppt store apptId with
    | none => (.notFound, store)
    | some a =>
      if a.doctor ≠ callerId then (.unauthorized, store)
      else if a.status ≠ "confirmed" then (.invalidStatus a.status, store)
      else if nanCmp now = true then (.futureAppointment, store)
      else
        match saveAppt store (completeUpd a) with
        | some store' => (.completed (completeUpd a), store')
        | none => (.serverError, store)

/-- Outcome of the doctor's update-status operation of
src/server/controllers/appointmentController.js
(`updateAppointmentStatus`, lines 113-142). -/
inductive UpdateResult where
  | accessDenied
  | notFound
  | unauthorized
  | updated (a : Appt)
  | serverError
deriving Repr, DecidableEq

/-- The update-status controller operation: role gate, load, ownership,
then `appointment.status = status; save()` with no check of the prior
status and no restriction of the new value beyond the schema enum the
save validates. -/
def updateStatus (store : List Appt) (callerId : Nat) (callerRole : String)
    (apptId : Nat) (newStatus : String) : UpdateResult × List Appt :=
  if callerRole ≠ "doctor" then (.accessDenied, store)
  else
    match findAppt store apptId with
    | none => (.notFound, store)
    | some a =>
      if a.doctor ≠ callerId then (.unauthorized, store)
      else
        match saveAppt store { a with status := newStatus } with
        | some store' => (.updated { a with status := newStatus }, store')
        | none => (.serverError, store)

/-- The date-range filter a list query builds when `from`/`to` are
supplied (src/server/routes/appointments.js lines 105-109): both bounds
pass through `normalizeDate`, giving the inclusive window
`normalizeDate from ≤ date ≤ normalizeDate to`. -/
def dateRangeFilter (fromBound toBound : Option Int) (t : Int) : Bool :=
  (match fromBound with
   | some f => decide (normalizeDate f ≤ t)
   | none => true)
  && (match toBound with
      | some u => decide (t ≤ normalizeDate u)
      | none => true)

/-- Two booking requests interleaved as plain read-then-write allows:
both decision phases (including both conflict reads) run against the
initial store, then each successful decision performs its unconditional
create. Returns both outcomes and the final store. -/
def bookRace (store : List Appt) (now : Int) (c1 c2 d1 d2 : Nat)
    (t1 t2 : Int) (id1 id2 : Nat) :
    BookResult × BookResult × List Appt :=
  let r1 := bookDecide store now c1 "patient" d1 t1 none none id1
  let r2 := bookDecide store now c2 "patient" d2 t2 none none id2
  let s1 := match r1 with
    | .created a => store ++ [a]
    | _ => store
  let s2 := match r2 with
    | .created a => s1 ++ [a]
    | _ => s1
  (r1, r2, s2)

/-! Helper lemmas shared by the claim theorems. -/

/-- The value "confirmed" the accept handlers write is not in the schema
status enum. -/
lemma confirmed_not_mem_enum : "confirmed" ∉ statusEnum := by decide

/-- Saving any document whose status is "confirmed" fails schema
validation. -/
lemma saveAppt_confirmed (store : List Appt) (b : Appt)
    (hb : b.status = "confirmed") : saveAppt store b = none := by
  simp [saveAppt, statusEnum, hb]

/-- The accept handler of the main router never commits anything: every
exit leaves the store unchanged and none is the success exit — it fails
with the 500 server error at the conflict re-check's TypeError before
any write (and the "confirmed" it would save is out of enum anyway). -/
lemma acceptV1_no_commit (store : List Appt) (callerId : Nat)
    (callerRole : String) (apptId : Nat) (r : AcceptResult) (s' : List Appt)
    (h : acceptV1 store callerId callerRole apptId = (r, s')) :
    s' = store ∧ r.isAccepted = false := by
  unfold acceptV1 at h
  split at h
  · injection h with h1 h2; subst h1 h2; exact ⟨rfl, rfl⟩
  · split at h
    · injection h with h1 h2; subst h1 h2; exact ⟨rfl, rfl⟩
    · split at h
      · injection h with h1 h2; subst h1 h2; exact ⟨rfl, rfl⟩
      · split at h
        · injection h with h1 h2; subst h1 h2; exact ⟨rfl, rfl⟩
        · injection h with h1 h2; subst h1 h2; exact ⟨rfl, rfl⟩

/-- The status transitions the four route operations actually commit:
unchanged, any non-terminal status to "cancelled" (the cancel handler
guards only against cancelled/completed), or "confirmed" to "completed"
(the complete handler guards on confirmed). -/
def stepOk (old new : String) : Prop :=
  old = new
    ∨ (old ≠ "cancelled" ∧ old ≠ "completed" ∧ new = "cancelled")
    ∨ (old = "confirmed" ∧ new = "completed")

/-- A store evolution is admissible when every appointment in the new
store either updates one of the old store's appointments along `stepOk`
or is a freshly created pending appointment. -/
def evolvesOk (old new : List Appt) : Prop :=
  ∀ b ∈ new, (∃ a ∈ old, a.id = b.id ∧ stepOk a.status b.status) ∨ b.status = "pending"

/-- A store evolves admissibly to itself. -/
lemma evolvesOk_refl (s : List Appt) : evolvesOk s s :=
  fun b hb => Or.inl ⟨b, hb, rfl, Or.inl rfl⟩

/-- A successful save of a single admissibly-updated document is an
admissible store evolution. -/
lemma evolvesOk_save (store : List Appt) (a upd : Appt) (store' : List Appt)
    (ha : a ∈ store) (hid : upd.id = a.id) (hstep : stepOk a.status upd.status)
    (hsave : saveAppt store upd = some store') : evolvesOk store store' := by
  have hmap : store' = store.map (fun b => if b.id = upd.id then upd else b) := by
    unfold saveAppt at hsave
    split at hsave
    · exact (Option.some.inj hsave).symm
    · exact absurd hsave (by simp)
  subst hmap
  intro b' hb'
  rcases List.mem_map.mp hb' with ⟨b, hb, he⟩
  by_cases hbid : b.id = upd.id
  · rw [if_pos hbid] at he
    subst he
    exact Or.inl ⟨a, ha, hid.symm, hstep⟩
  · rw [if_neg hbid] at he
    subst he
    exact Or.inl ⟨b, hb, rfl, Or.inl rfl⟩

/-- The booking decision phase only ever creates the pending document
`mkAppt` builds. -/
lemma bookDecide_created_eq (store : List Appt) (now : Int)
    (callerId : Nat) (callerRole : String) (doctorId : Nat) (date : Int)
    (purpose notes : Option String) (newId : Nat) (a : Appt)
    (h : bookDecide store now callerId callerRole doctorId date purpose notes newId
          = .created a) :
    a = mkAppt callerId doctorId date purpose notes newId := by
  unfold bookDecide at h
  split at h
  · exact absurd h (by simp)
  · split at h
    · exact absurd h (by simp)
    · split at h
      · exact absurd h (by simp)
      · exact (BookResult.created.inj h).symm

/-- Booking is an admissible store evolution: it only appends a pending
appointment. -/
lemma book_evolves (store : List Appt) (now : Int) (callerId : Nat)
    (callerRole : String) (doctorId : Nat) (date : Int)
    (purpose notes : Option String) (newId : Nat) (r : BookResult)
    (s' : List Appt)
    (h : book store now callerId callerRole doctorId date purpose notes newId = (r, s')) :
    evolvesOk store s' := by
  unfold book at h
  split at h
  · next a ha =>
    injection h with h1 h2
    subst h2
    intro b hb
    rcases List.mem_append.mp hb with hb | hb
    · exact Or.inl ⟨b, hb, rfl, Or.inl rfl⟩
    · have hba : b = a := List.mem_singleton.mp hb
      subst hba
      have := bookDecide_created_eq store now callerId callerRole doctorId date
        purpose notes newId b ha
      subst this
      exact Or.inr rfl
  · injection h with h1 h2
    subst h2
    exact evolvesOk_refl store

/-- Cancelling is an admissible store evolution: it only moves a
non-terminal appointment to "cancelled". -/
lemma cancel_evolves (store : List Appt) (now : Int) (callerId : Nat)
    (callerRole : String) (apptId : Nat) (reason : Option String)
    (r : CancelResult) (s' : List Appt)
    (h : cancel store now callerId callerRole apptId reason = (r, s')) :
    evolvesOk store s' := by
  unfold cancel at h
  split at h
  · injection h with h1 h2; subst h2; exact evolvesOk_refl store
  · next a hfind =>
    split at h
    · injection h with h1 h2; subst h2; exact evolvesOk_refl store
    · split at h
      · injection h with h1 h2; subst h2; exact evolvesOk_refl store
      · next hterm =>
        split at h
        · injection h with h1 h2; subst h2; exact evolvesOk_refl store
        · split at h
          · injection h with h1 h2; subst h2; exact evolvesOk_refl store
          · split at h
            · next store2 hsave =>
              injection h with h1 h2
              subst h2
              refine evolvesOk_save store a (cancelUpd a) store2
                (List.mem_of_find?_eq_some hfind) rfl ?_ hsave
              exact Or.inr (Or.inl ⟨fun hc => hterm (Or.inl hc),
                fun hc => hterm (Or.inr hc), rfl⟩)
            · injection h with h1 h2; subst h2; exact evolvesOk_refl store

/-- Completing is an admissible store evolution: it only moves a
confirmed appointment to "completed". -/
lemma complete_evolves (store : List Appt) (now : Int) (callerId : Nat)
    (callerRole : String) (apptId : Nat) (notes prescription : Option String)
    (r : CompleteResult) (s' : List Appt)
    (h : complete store now callerId callerRole apptId notes prescription = (r, s')) :
    evolvesOk store s' := by
  unfold complete at h
  split at h
  · injection h with h1 h2; subst h2; exact evolvesOk_refl store
  · split at h
    · injection h with h1 h2; subst h2; exact evolvesOk_refl store
    · next a hfind =>
      split at h
      · injection h with h1 h2; subst h2; exact evolvesOk_refl store
      · split at h
        · injection h with h1 h2; subst h2; exact evolvesOk_refl store
        · next hstat =>
          split at h
          · injection h with h1 h2; subst h2; exact evolvesOk_refl store
          · split at h
            · next store2 hsave =>
              injection h with h1 h2
              subst h2
              refine evolvesOk_save store a (completeUpd a) store2
                (List.mem_of_find?_eq_some hfind) rfl ?_ hsave
              exact Or.inr (Or.inr ⟨not_not.mp hstat, rfl⟩)
            · injection h with h1 h2; subst h2; exact evolvesOk_refl store

/-- The update-status controller operation commits any in-enum status
for the caller's own appointment, with no prior-status check. -/
lemma updateStatus_commits (store : List Appt) (callerId apptId : Nat)
    (newStatus : String) (a : Appt)
    (hfind : findAppt store apptId = some a)
    (hdoc : a.doctor = callerId)
    (henum : newStatus ∈ statusEnum) :
    updateStatus store callerId "doctor" apptId newStatus
      = (.updated { a with status := newStatus },
         store.map (fun b => if b.id = a.id then { a with status := newStatus } else b)) := by
  simp [updateStatus, saveAppt, hfind, hdoc, henum]

/-! Claim theorems. -/

/-- C1 (counterexample): the claim that every engine operation,
including the doctor's update-status operation, changes `status` only
along the state machine with cancelled absorbing is false: on a
cancelled appointment, `updateAppointmentStatus` with body status
"pending" succeeds and moves the status back to "pending". -/
theorem updateStatus_unguarded_cx :
    (updateStatus
      [{ id := 1, patient := 2, doctor := 5, date := 0, purpose := "",
         notes := "", prescription := "", status := "cancelled",
         cancelledBy := "patient", cancellationReason := "", completedAt := none }]
      5 "doctor" 1 "pending")
    = (.updated
        { id := 1, patient := 2, doctor := 5, date := 0, purpose := "",
          notes := "", prescription := "", status := "pending",
          cancelledBy := "patient", cancellationReason := "", completedAt := none },
       [{ id := 1, patient := 2, doctor := 5, date := 0, purpose := "",
          notes := "", prescription := "", status := "pending",
          cancelledBy := "patient", cancellationReason := "", completedAt := none }]) := by
  decide

/-- C1 (amended): the four route operations respect a restricted state
machine — Book only creates pending appointments, Accept never commits
a status change (it fails with the 500 server error at the conflict
re-check before any write, and the "confirmed" it would save is outside
the model's status enum anyway), Cancel changes status only from a
non-terminal status to cancelled, and Complete only from confirmed to
completed, so cancelled and completed are absorbing under them — but
the doctor's update-status controller operation commits any
caller-supplied enum status with no check of the prior status, so under
it cancelled and completed are not absorbing. -/
theorem status_machine_amended :
    (∀ (store : List Appt) (now : Int) (callerId : Nat) (callerRole : String)
        (doctorId : Nat) (date : Int) (purpose notes : Option String)
        (newId : Nat) (r : BookResult) (s' : List Appt),
        book store now callerId callerRole doctorId date purpose notes newId = (r, s') →
        evolvesOk store s')
  ∧ (∀ (store : List Appt) (callerId : Nat) (callerRole : String)
        (apptId : Nat) (r : AcceptResult) (s' : List Appt),
        acceptV1 store callerId callerRole apptId = (r, s') →
        s' = store ∧ r.isAccepted = false)
  ∧ (∀ (store : List Appt) (now : Int) (callerId : Nat) (callerRole : String)
        (apptId : Nat) (reason : Option String) (r : CancelResult) (s' : List Appt),
        cancel store now callerId callerRole apptId reason = (r, s') →
        evolvesOk store s')
  ∧ (∀ (store : List Appt) (now : Int) (callerId : Nat) (callerRole : String)
        (apptId : Nat) (notes prescription : Option String)
        (r : CompleteResult) (s' : List Appt),
        complete store now callerId callerRole apptId notes prescription = (r, s') →
        evolvesOk store s')
  ∧ (∀ (store : List Appt) (callerId apptId : Nat) (newStatus : String) (a : Appt),
        findAppt store apptId = some a → a.doctor = callerId →
        newStatus ∈ statusEnum →
        updateStatus store callerId "doctor" apptId newStatus
          = (.updated { a with status := newStatus },
             store.map (fun b => if b.id = a.id then { a with status := newStatus } else b))) :=
  ⟨fun store now cid crole did date p n nid r s' h =>
      book_evolves store now cid crole did date p n nid r s' h,
   fun store cid crole aid r s' h => acceptV1_no_commit store cid crole aid r s' h,
   fun store now cid crole aid reason r s' h =>
      cancel_evolves store now cid crole aid reason r s' h,
   fun store now cid crole aid n p r s' h =>
      complete_evolves store now cid crole aid n p r s' h,
   fun store cid aid ns a hf hd he => updateStatus_commits store cid aid ns a hf hd he⟩

/-- C1 (witness): the amended theorem applied at a concrete input: a
doctor moves their own completed appointment to "accepted" through the
update-status operation. -/
theorem status_machine_amended_witness :
    updateStatus
      [{ id := 4, patient := 2, doctor := 9, date := 0, purpose := "",
         notes := "", prescription := "", status := "completed",
         cancelledBy := "", cancellationReason := "", completedAt := some 0 }]
      9 "doctor" 4 "accepted"
    = (.updated
        { id := 4, patient := 2, doctor := 9, date := 0, purpose := "",
          notes := "", prescription := "", status := "accepted",
          cancelledBy := "", cancellationReason := "", completedAt := some 0 },
       [{ id := 4, patient := 2, doctor := 9, date := 0, purpose := "",
          notes := "", prescription := "", status := "accepted",
          cancelledBy := "", cancellationReason := "", completedAt := some 0 }]) := by
  have h := status_machine_amended.2.2.2.2
    [{ id := 4, patient := 2, doctor := 9, date := 0, purpose := "",
       notes := "", prescription := "", status := "completed",
       cancelledBy := "", cancellationReason := "", completedAt := some 0 }]
    9 4 "accepted"
    { id := 4, patient := 2, doctor := 9, date := 0, purpose := "",
      notes := "", prescription := "", status := "completed",
      cancelledBy := "", cancellationReason := "", completedAt := some 0 }
    (by decide) (by decide) (by decide)
  simpa using h

/-- C3: the claim that the persisted scheduledAt equals the instant the
caller supplied is right as specified but violated by the model: the
schema's `toDateOnly` setter midnight-normalizes the stored date.
Supplying 2025-06-01T10:20:00Z (1748773200000 ms) persists
2025-06-01T00:00:00Z (1748736000000 ms), not the supplied instant. -/
theorem toDateOnly_drops_time :
    toDateOnly 1748773200000 = 1748736000000
  ∧ toDateOnly 1748773200000 ≠ 1748773200000
  ∧ (mkAppt 2 1 1748773200000 none none 7).date ≠ 1748773200000 := by
  decide

/-- C5 (counterexample): the claim that booking with scheduledAt equal
to now always fails with ValidationError and creates nothing is false:
the handler's past check is strict (`appointmentDate < today`), so a
request at exactly `now` passes it and, on an empty store, creates the
appointment with a 201. -/
theorem book_at_now_accepted_cx :
    (book [] 1000 2 "patient" 1 1000 none none 7).1.isCreated = true
  ∧ (book [] 1000 2 "patient" 1 1000 none none 7).1.httpStatus = 201
  ∧ (book [] 1000 2 "patient" 1 1000 none none 7).2 ≠ [] := by
  decide

/-- C5 (amended): booking rejects a strictly past scheduledAt
(`scheduledAt < now`) with the 400 past-date error and creates nothing;
a scheduledAt exactly equal to now is not rejected as past. -/
theorem book_past_rejected (store : List Appt) (now : Int)
    (callerId doctorId newId : Nat) (date : Int)
    (purpose notes : Option String) (hpast : date < now) :
    book store now callerId "patient" doctorId date purpose notes newId
      = (.pastDate, store)
  ∧ BookResult.httpStatus .pastDate = 400 := by
  constructor
  · simp [book, bookDecide, hpast]
  · rfl

/-- C5 (witness): the amended theorem applied at a concrete past
instant. -/
theorem book_past_rejected_witness :
    book [] 1000 2 "patient" 1 999 none none 7 = (.pastDate, [])
  ∧ BookResult.httpStatus .pastDate = 400 :=
  book_past_rejected [] 1000 2 1 7 999 none none (by decide)

/-- C2: for a patient's booking request with a valid future time, the
handler exits with the 409 Conflict response if and only if the store
holds an appointment for the requested doctor whose stored date lies
within plus or minus 30 minutes of the requested time with status
pending or confirmed; the conflict response carries the conflicting
appointment's id, date and patient. -/
theorem book_conflict_iff (store : List Appt) (now : Int)
    (callerId doctorId newId : Nat) (date : Int)
    (purpose notes : Option String) (hfuture : now < date) :
    ((book store now callerId "patient" doctorId date purpose notes newId).1.isConflict = true
      ↔ ∃ a ∈ store, conflictMatches doctorId date none a = true)
  ∧ (∀ cid cdate cpatient,
      (book store now callerId "patient" doctorId date purpose notes newId).1
        = .conflict cid cdate cpatient →
      ∃ a ∈ store, conflictMatches doctorId date none a = true
        ∧ a.id = cid ∧ a.date = cdate ∧ a.patient = cpatient)
  ∧ (∀ cid cdate cpatient,
      (BookResult.conflict cid cdate cpatient).httpStatus = 409) := by
  have hnp : ¬ date < now := not_lt.mpr (le_of_lt hfuture)
  unfold book bookDecide
  rw [if_neg (by simp), if_neg hnp]
  cases hc : checkTimeSlotConflict store doctorId date none with
  | some c =>
    refine ⟨⟨fun _ => ?_, fun _ => rfl⟩, fun cid cdate cp h => ?_, fun _ _ _ => rfl⟩
    · exact ⟨c, List.mem_of_find?_eq_some hc, List.find?_some hc⟩
    · injection h with h1 h2 h3
      subst h1 h2 h3
      exact ⟨c, List.mem_of_find?_eq_some hc, List.find?_some hc, rfl, rfl, rfl⟩
  | none =>
    refine ⟨⟨fun habs => absurd habs (by simp [BookResult.isConflict]), ?_⟩,
      fun cid cdate cp h => ?_, fun _ _ _ => rfl⟩
    · rintro ⟨a, ha, hpa⟩
      exact absurd hpa (by simpa using List.find?_eq_none.mp hc a ha)
    · exact BookResult.noConfusion h

/-- C2 (witness): the theorem applied to a store holding a pending
appointment 10 minutes after the requested future time. -/
theorem book_conflict_iff_witness :
    (book
      [{ id := 3, patient := 4, doctor := 1, date := 36600000, purpose := "",
         notes := "", prescription := "", status := "pending",
         cancelledBy := "", cancellationReason := "", completedAt := none }]
      0 2 "patient" 1 36000000 none none 7).1.isConflict = true :=
  (book_conflict_iff
    [{ id := 3, patient := 4, doctor := 1, date := 36600000, purpose := "",
       notes := "", prescription := "", status := "pending",
       cancelledBy := "", cancellationReason := "", completedAt := none }]
    0 2 1 7 36000000 none none (by decide)).1.mpr (by decide)

/-- C4: the accept handler's final write (line 420) sets status to
"confirmed", a value absent from the model's status enum, so no save of
it could pass schema validation; in fact the handler answers with the
500 server error even earlier, at the conflict re-check's TypeError on
the getter string, leaving the store unchanged whenever every guard
passes; the accept operation never returns its success exit for any
input. -/
theorem accept_enum_server_error :
    ("confirmed" ∉ statusEnum)
  ∧ (∀ (store : List Appt) (callerId apptId : Nat) (a : Appt),
      findAppt store apptId = some a → a.doctor = callerId →
      a.status = "pending" →
      checkTimeSlotConflict store callerId a.date (some a.id) = none →
      acceptV1 store callerId "doctor" apptId = (.serverError, store)
        ∧ AcceptResult.httpStatus .serverError = 500)
  ∧ (∀ (store : List Appt) (callerId : Nat) (callerRole : String) (apptId : Nat),
      ((acceptV1 store callerId callerRole apptId).1).isAccepted = false) := by
  refine ⟨confirmed_not_mem_enum, ?_, ?_⟩
  · intro store callerId apptId a hfind hdoc hstat _hconf
    constructor
    · simp [acceptV1, hfind, hdoc, hstat]
    · rfl
  · intro store callerId callerRole apptId
    exact (acceptV1_no_commit store callerId callerRole apptId _ _ rfl).2

/-- C4 (witness): the theorem applied to a clean pending appointment
whose doctor accepts it: the result is the 500 server error. -/
theorem accept_enum_server_error_witness :
    acceptV1
      [{ id := 1, patient := 2, doctor := 5, date := 0, purpose := "",
         notes := "", prescription := "", status := "pending",
         cancelledBy := "", cancellationReason := "", completedAt := none }]
      5 "doctor" 1
    = (.serverError,
       [{ id := 1, patient := 2, doctor := 5, date := 0, purpose := "",
          notes := "", prescription := "", status := "pending",
          cancelledBy := "", cancellationReason := "", completedAt := none }]) :=
  (accept_enum_server_error.2.1
    [{ id := 1, patient := 2, doctor := 5, date := 0, purpose := "",
       notes := "", prescription := "", status := "pending",
       cancelledBy := "", cancellationReason := "", completedAt := none }]
    5 1
    { id := 1, patient := 2, doctor := 5, date := 0, purpose := "",
      notes := "", prescription := "", status := "pending",
      cancelledBy := "", cancellationReason := "", completedAt := none }
    (by decide) (by decide) (by decide) (by decide)).1

/-- C8: an accept call on an appointment whose scheduledAt is already in
the past is rejected with no transition to confirmed: the transactional
accept handler (src/unnamed/part_003) rejects it with the explicit 400
past-appointment error before any write, and the main router's accept
handler leaves the store unchanged and never reaches its success exit
on any input (its lack of a past check is masked by its 500 at the
conflict re-check, and its "confirmed" write is out of enum anyway). -/
theorem accept_past_rejected :
    (∀ (store : List Appt) (users : List Nat) (now : Int)
        (callerId apptId : Nat) (a : Appt),
        store.find? (fun b => b.id == apptId && b.doctor == callerId
          && b.status == "pending") = some a →
        a.patient ∈ users → a.doctor ∈ users → a.date < now →
        acceptTx store users now callerId "doctor" apptId = (.pastDate, store)
          ∧ TxAcceptResult.httpStatus .pastDate = 400)
  ∧ (∀ (store : List Appt) (callerId : Nat) (callerRole : String) (apptId : Nat),
        (acceptV1 store callerId callerRole apptId).2 = store
          ∧ ((acceptV1 store callerId callerRole apptId).1).isAccepted = false) := by
  constructor
  · intro store users now callerId apptId a hfind hp hd hpast
    constructor
    · simp [acceptTx, hfind, hp, hd, hpast]
    · rfl
  · intro store callerId callerRole apptId
    exact acceptV1_no_commit store callerId callerRole apptId _ _ rfl

/-- C8 (witness): the theorem applied to a pending appointment scheduled
in the past: the transactional accept answers with the 400 past-date
rejection and the store is unchanged. -/
theorem accept_past_rejected_witness :
    acceptTx
      [{ id := 1, patient := 2, doctor := 5, date := 1000, purpose := "",
         notes := "", prescription := "", status := "pending",
         cancelledBy := "", cancellationReason := "", completedAt := none }]
      [2, 5] 2000 5 "doctor" 1
    = (.pastDate,
       [{ id := 1, patient := 2, doctor := 5, date := 1000, purpose := "",
          notes := "", prescription := "", status := "pending",
          cancelledBy := "", cancellationReason := "", completedAt := none }]) :=
  (accept_past_rejected.1
    [{ id := 1, patient := 2, doctor := 5, date := 1000, purpose := "",
       notes := "", prescription := "", status := "pending",
       cancelledBy := "", cancellationReason := "", completedAt := none }]
    [2, 5] 2000 5 1
    { id := 1, patient := 2, doctor := 5, date := 1000, purpose := "",
      notes := "", prescription := "", status := "pending",
      cancelledBy := "", cancellationReason := "", completedAt := none }
    (by decide) (by decide) (by decide) (by decide)).1

/-- C6: the claim's 24-hour (patient) and 1-hour (doctor) cancellation
windows are right as specified but dead in the code: the handler's
`hoursUntilAppointment` is NaN because `appointment.date` reads through
the schema's string getter, so both guards never fire. The assigned
patient cancelling their pending appointment 23 hours ahead (now =
01:00, stored date = next UTC midnight) succeeds with 200 and status
"cancelled" instead of the claimed 403 Forbidden, the supplied reason
and the caller's role are never persisted (non-schema paths), and the
assigned doctor cancelling 30 minutes ahead succeeds the same way. -/
theorem cancel_nan_window_dead :
    cancel
      [{ id := 1, patient := 2, doctor := 5, date := 86400000, purpose := "",
         notes := "", prescription := "", status := "pending",
         cancelledBy := "", cancellationReason := "", completedAt := none }]
      3600000 2 "patient" 1 (some "sick")
    = (.cancelled
        { id := 1, patient := 2, doctor := 5, date := 86400000, purpose := "",
          notes := "", prescription := "", status := "cancelled",
          cancelledBy := "", cancellationReason := "", completedAt := none },
       [{ id := 1, patient := 2, doctor := 5, date := 86400000, purpose := "",
          notes := "", prescription := "", status := "cancelled",
          cancelledBy := "", cancellationReason := "", completedAt := none }])
  ∧ cancel
      [{ id := 1, patient := 2, doctor := 5, date := 86400000, purpose := "",
         notes := "", prescription := "", status := "confirmed",
         cancelledBy := "", cancellationReason := "", completedAt := none }]
      84600000 5 "doctor" 1 none
    = (.cancelled
        { id := 1, patient := 2, doctor := 5, date := 86400000, purpose := "",
          notes := "", prescription := "", status := "cancelled",
          cancelledBy := "", cancellationReason := "", completedAt := none },
       [{ id := 1, patient := 2, doctor := 5, date := 86400000, purpose := "",
          notes := "", prescription := "", status := "cancelled",
          cancelledBy := "", cancellationReason := "", completedAt := none }])
  ∧ (CancelResult.cancelled
      { id := 1, patient := 2, doctor := 5, date := 86400000, purpose := "",
        notes := "", prescription := "", status := "cancelled",
        cancelledBy := "", cancellationReason := "", completedAt := none }).httpStatus = 200
  ∧ nanCmp 24 = false ∧ nanCmp 1 = false := by
  decide

/-- C7: the claim's rules are right as specified but two of them are
dead or dropped in the code: the future-appointment guard compares the
getter's "YYYY-MM-DD" string against a Date and is always false, so the
assigned doctor completing their confirmed appointment scheduled 23
hours in the future (now = 01:00, stored date = next UTC midnight) gets
200 and status "completed" instead of the claimed InvalidState; and
completedAt, notes and prescription are not schema paths, so despite
the caller supplying both merge fields the committed document carries
no completedAt and unchanged notes/prescription. Only the
invalid-status rule is live: on a non-confirmed appointment the handler
answers 400 invalid-status. -/
theorem complete_nan_future_dead :
    complete
      [{ id := 1, patient := 2, doctor := 5, date := 86400000, purpose := "",
         notes := "", prescription := "", status := "confirmed",
         cancelledBy := "", cancellationReason := "", completedAt := none }]
      3600000 5 "doctor" 1 (some "new notes") (some "rx")
    = (.completed
        { id := 1, patient := 2, doctor := 5, date := 86400000, purpose := "",
          notes := "", prescription := "", status := "completed",
          cancelledBy := "", cancellationReason := "", completedAt := none },
       [{ id := 1, patient := 2, doctor := 5, date := 86400000, purpose := "",
          notes := "", prescription := "", status := "completed",
          cancelledBy := "", cancellationReason := "", completedAt := none }])
  ∧ (CompleteResult.completed
      { id := 1, patient := 2, doctor := 5, date := 86400000, purpose := "",
        notes := "", prescription := "", status := "completed",
        cancelledBy := "", cancellationReason := "", completedAt := none }).httpStatus = 200
  ∧ complete
      [{ id := 1, patient := 2, doctor := 5, date := 86400000, purpose := "",
         notes := "", prescription := "", status := "pending",
         cancelledBy := "", cancellationReason := "", completedAt := none }]
      3600000 5 "doctor" 1 none none
    = (.invalidStatus "pending",
       [{ id := 1, patient := 2, doctor := 5, date := 86400000, purpose := "",
          notes := "", prescription := "", status := "pending",
          cancelledBy := "", cancellationReason := "", completedAt := none }])
  ∧ (CompleteResult.invalidStatus "pending").httpStatus = 400
  ∧ nanCmp 3600000 = false := by
  decide

/-- C9 (counterexample): the claim that the `to` bound includes the
entire end day is false: both bounds are normalized to the start of the
UTC day, so an instant 10 hours into the same day as the `to` value
(here 01:00 of day zero) is excluded by the filter even though only the
day's exact midnight instant passes. -/
theorem to_bound_excludes_day_cx :
    normalizeDate 36000000 = normalizeDate 3600000
  ∧ dateRangeFilter (some 0) (some 3600000) 36000000 = false
  ∧ dateRangeFilter (some 0) (some 3600000) (normalizeDate 3600000) = true := by
  decide

/-- C9 (amended): both date bounds are normalized to the start (UTC
midnight) of their day: the `from` bound admits every instant of the
start day, but the `to` bound admits an instant of its own day only
when that instant is exactly the day's midnight, excluding the rest of
the end day; the filter is the inclusive interval between the two
normalized bounds. -/
theorem date_filter_bounds (f u t : Int) :
    (normalizeDate t = normalizeDate f → normalizeDate f ≤ t)
  ∧ (normalizeDate t = normalizeDate u → (t ≤ normalizeDate u ↔ t = normalizeDate u))
  ∧ (dateRangeFilter (some f) (some u) t = true
      ↔ (normalizeDate f ≤ t ∧ t ≤ normalizeDate u)) := by
  have key : ∀ x : Int, normalizeDate x ≤ x := by
    intro x
    unfold normalizeDate
    have h1 : msPerDay * (x / msPerDay) + x % msPerDay = x :=
      Int.ediv_add_emod x msPerDay
    have h2 : 0 ≤ x % msPerDay :=
      Int.emod_nonneg x (by norm_num [msPerDay])
    calc x / msPerDay * msPerDay = msPerDay * (x / msPerDay) := mul_comm _ _
      _ ≤ msPerDay * (x / msPerDay) + x % msPerDay := le_add_of_nonneg_right h2
      _ = x := h1
  refine ⟨?_, ?_, ?_⟩
  · intro h
    calc normalizeDate f = normalizeDate t := h.symm
      _ ≤ t := key t
  · intro h
    constructor
    · intro hle
      have hle' : t ≤ normalizeDate t := by rw [h]; exact hle
      exact (le_antisymm hle' (key t)).trans h
    · intro he
      rw [he]
  · simp [dateRangeFilter]

/-- C9 (witness): the theorem applied at concrete values: every instant
of the start day passes the normalized `from` bound. -/
theorem date_filter_bounds_witness :
    normalizeDate 3600000 ≤ (7200000 : Int) :=
  (date_filter_bounds 3600000 90000000 7200000).1 (by decide)

/-- C10 (counterexample): the claim that two concurrent overlapping
bookings cannot both succeed is false for the plain
read-then-unconditional-write booking handler: with an empty store and
two requests for the same doctor 20 minutes apart, the interleaving
that runs both conflict reads before either create returns 201 for
both and leaves two pending appointments for the doctor in the store. -/
theorem book_race_double_cx :
    (bookRace [] 0 2 3 1 1 36000000 37200000 10 11).1
      = .created (mkAppt 2 1 36000000 none none 10)
  ∧ (bookRace [] 0 2 3 1 1 36000000 37200000 10 11).2.1
      = .created (mkAppt 3 1 37200000 none none 11)
  ∧ (bookRace [] 0 2 3 1 1 36000000 37200000 10 11).2.2
      = [mkAppt 2 1 36000000 none none 10, mkAppt 3 1 37200000 none none 11]
  ∧ (mkAppt 2 1 36000000 none none 10).doctor = (mkAppt 3 1 37200000 none none 11).doctor
  ∧ (mkAppt 2 1 36000000 none none 10).status = "pending"
  ∧ (mkAppt 3 1 37200000 none none 11).status = "pending"
  ∧ ((36000000 : Int) - 37200000).natAbs ≤ (30 * msPerMinute).natAbs := by
  decide

/-- C10 (amended): in the main booking handler the conflict check and
the create are separate store operations with no transaction or
conditional write, so under the interleaving in which both requests'
conflict reads see the initial store, two booking requests for
overlapping slots on the same doctor both succeed and both pending
appointments end up stored. -/
theorem book_race_not_atomic (store : List Appt) (now : Int)
    (c1 c2 d : Nat) (t1 t2 : Int) (id1 id2 : Nat)
    (h1 : now ≤ t1) (h2 : now ≤ t2)
    (_hoverlap : t1 - 30 * msPerMinute ≤ t2 ∧ t2 ≤ t1 + 30 * msPerMinute)
    (hc1 : checkTimeSlotConflict store d t1 none = none)
    (hc2 : checkTimeSlotConflict store d t2 none = none) :
    (bookRace store now c1 c2 d d t1 t2 id1 id2).1
      = .created (mkAppt c1 d t1 none none id1)
  ∧ (bookRace store now c1 c2 d d t1 t2 id1 id2).2.1
      = .created (mkAppt c2 d t2 none none id2)
  ∧ mkAppt c1 d t1 none none id1 ∈ (bookRace store now c1 c2 d d t1 t2 id1 id2).2.2
  ∧ mkAppt c2 d t2 none none id2 ∈ (bookRace store now c1 c2 d d t1 t2 id1 id2).2.2 := by
  have hd1 : bookDecide store now c1 "patient" d t1 none none id1
      = .created (mkAppt c1 d t1 none none id1) := by
    simp [bookDecide, hc1, not_lt.mpr h1]
  have hd2 : bookDecide store now c2 "patient" d t2 none none id2
      = .created (mkAppt c2 d t2 none none id2) := by
    simp [bookDecide, hc2, not_lt.mpr h2]
  refine ⟨?_, ?_, ?_, ?_⟩ <;>
    simp [bookRace, hd1, hd2]

/-- C10 (witness): the amended theorem applied at concrete inputs: two
future requests 20 minutes apart on a store with no prior conflicts. -/
theorem book_race_not_atomic_witness :
    (bookRace [] 0 2 3 1 1 36000000 37200000 10 11).1
      = .created (mkAppt 2 1 36000000 none none 10)
  ∧ mkAppt 3 1 37200000 none none 11 ∈ (bookRace [] 0 2 3 1 1 36000000 37200000 10 11).2.2 := by
  have h := book_race_not_atomic [] 0 2 3 1 36000000 37200000 10 11
    (by decide) (by decide) (by decide) (by decide) (by decide)
  exact ⟨h.1, h.2.2.2⟩

end MedSched
